import Mathlib

/-!
# Verification of the black-hole lensing fragment shader

Shallow embedding of the GLSL fragment shader (the most complete shader
variant of the repository: `sphereSDF`, `sceneSDF`, `calcb`,
`rotateRodrigues`, `deflectionAngleStable`, `computeLensedColor`, `hash21`,
`skyColor`, `deflectionAngleApprox`, `rotateAroundAxis`, `sampleLensedSky`
and `main`) over an arbitrary linearly ordered field `F` with a floor
function.  The transcendental GLSL built-ins (`sqrt`, `cos`, `sin`, `atan`,
`exp`, `asin` and two-argument `atan`) are abstracted into a record of
primitive functions `Prims F`; every shader function is translated
literally against that record, so the development is executable and the
theorems quantify over the primitives, constraining them pointwise where a
real analytic fact is needed.
-/

set_option linter.unusedSectionVars false
set_option linter.unusedVariables false

variable {F : Type*} [LinearOrderedField F] [FloorRing F]

/-- Two-component vector, mirroring GLSL `vec2`. -/
structure Vec2 (F : Type*) where
  x : F
  y : F
deriving DecidableEq

/-- Three-component vector, mirroring GLSL `vec3`. -/
structure Vec3 (F : Type*) where
  x : F
  y : F
  z : F
deriving DecidableEq

/-- Four-component vector, mirroring GLSL `vec4`. -/
structure Vec4 (F : Type*) where
  x : F
  y : F
  z : F
  w : F
deriving DecidableEq

attribute [ext] Vec2 Vec3 Vec4

/-- Matrix of four columns, mirroring GLSL column-major `mat4`. -/
structure Mat4 (F : Type*) where
  c0 : Vec4 F
  c1 : Vec4 F
  c2 : Vec4 F
  c3 : Vec4 F

/-- The transcendental GLSL built-ins used by the shader, kept abstract. -/
structure Prims (F : Type*) where
  sqrt : F → F
  cos : F → F
  sin : F → F
  atan : F → F
  exp : F → F
  asin : F → F
  atan2 : F → F → F

def Vec2.add (a b : Vec2 F) : Vec2 F := ⟨a.x + b.x, a.y + b.y⟩

/-- Componentwise product, GLSL `vec2 * vec2`. -/
def Vec2.cmul (a b : Vec2 F) : Vec2 F := ⟨a.x * b.x, a.y * b.y⟩

/-- Componentwise quotient, GLSL `vec2 / vec2`. -/
def Vec2.cdiv (a b : Vec2 F) : Vec2 F := ⟨a.x / b.x, a.y / b.y⟩

/-- GLSL `vec2 * s`. -/
def Vec2.scale (a : Vec2 F) (s : F) : Vec2 F := ⟨a.x * s, a.y * s⟩

/-- GLSL `vec2 + s` (scalar broadcast). -/
def Vec2.addScalar (a : Vec2 F) (s : F) : Vec2 F := ⟨a.x + s, a.y + s⟩

/-- GLSL `vec2 - s` (scalar broadcast). -/
def Vec2.subScalar (a : Vec2 F) (s : F) : Vec2 F := ⟨a.x - s, a.y - s⟩

def Vec2.dot (a b : Vec2 F) : F := a.x * b.x + a.y * b.y

/-- GLSL `fract` on a `vec2`, componentwise. -/
def Vec2.fractV (a : Vec2 F) : Vec2 F := ⟨Int.fract a.x, Int.fract a.y⟩

/-- GLSL `floor` on a `vec2`, componentwise. -/
def Vec2.floorV (a : Vec2 F) : Vec2 F := ⟨(⌊a.x⌋ : F), (⌊a.y⌋ : F)⟩

def Vec3.add (a b : Vec3 F) : Vec3 F := ⟨a.x + b.x, a.y + b.y, a.z + b.z⟩

def Vec3.sub (a b : Vec3 F) : Vec3 F := ⟨a.x - b.x, a.y - b.y, a.z - b.z⟩

/-- GLSL `vec3 * s`. -/
def Vec3.scale (a : Vec3 F) (s : F) : Vec3 F := ⟨a.x * s, a.y * s, a.z * s⟩

/-- GLSL `vec3 / s`. -/
def Vec3.divScalar (a : Vec3 F) (s : F) : Vec3 F := ⟨a.x / s, a.y / s, a.z / s⟩

def Vec3.dot (a b : Vec3 F) : F := a.x * b.x + a.y * b.y + a.z * b.z

def Vec3.cross (a b : Vec3 F) : Vec3 F :=
  ⟨a.y * b.z - a.z * b.y, a.z * b.x - a.x * b.z, a.x * b.y - a.y * b.x⟩

/-- Squared Euclidean length, `dot(v, v)`. -/
def Vec3.normSq (a : Vec3 F) : F := Vec3.dot a a

/-- GLSL `length(v) = sqrt(dot(v, v))`, via the abstract square root. -/
def Vec3.length (P : Prims F) (a : Vec3 F) : F := P.sqrt (Vec3.normSq a)

/-- GLSL `normalize(v) = v / length(v)`. -/
def Vec3.normalize (P : Prims F) (a : Vec3 F) : Vec3 F :=
  Vec3.divScalar a (Vec3.length P a)

def Vec4.scale (a : Vec4 F) (s : F) : Vec4 F := ⟨a.x * s, a.y * s, a.z * s, a.w * s⟩

def Vec4.add (a b : Vec4 F) : Vec4 F := ⟨a.x + b.x, a.y + b.y, a.z + b.z, a.w + b.w⟩

/-- GLSL swizzle `.xyz`. -/
def Vec4.xyz (a : Vec4 F) : Vec3 F := ⟨a.x, a.y, a.z⟩

/-- GLSL `mat4 * vec4` (column-major linear combination of the columns). -/
def Mat4.mulVec (M : Mat4 F) (v : Vec4 F) : Vec4 F :=
  Vec4.add (Vec4.add (Vec4.scale M.c0 v.x) (Vec4.scale M.c1 v.y))
    (Vec4.add (Vec4.scale M.c2 v.z) (Vec4.scale M.c3 v.w))

/-- GLSL `clamp(x, lo, hi) = min(max(x, lo), hi)`. -/
def glslClamp (x lo hi : F) : F := min (max x lo) hi

/-- GLSL scalar `mix(a, b, t) = a * (1 - t) + b * t`. -/
def glslMix (a b t : F) : F := a * (1 - t) + b * t

/-- GLSL `mix` on `vec3` with a scalar interpolant, componentwise. -/
def glslMix3 (a b : Vec3 F) (t : F) : Vec3 F :=
  ⟨glslMix a.x b.x t, glslMix a.y b.y t, glslMix a.z b.z t⟩

/-- GLSL `smoothstep(e0, e1, x)`. -/
def glslSmoothstep (e0 e1 x : F) : F :=
  let t := glslClamp ((x - e0) / (e1 - e0)) 0 1
  t * t * (3 - 2 * t)

/-- GLSL `step(edge, x)`: `0` when `x < edge`, else `1`. -/
def glslStep (edge x : F) : F := if x < edge then 0 else 1

/-- GLSL `fract(x) = x - floor(x)`. -/
def glslFract (x : F) : F := Int.fract x

/-- Shader global: `float r_s = 1;` (Schwarzschild radius). -/
def r_s : F := 1

/-- Shader global: `float r_ph = 1.5 * r_s;` (photon sphere radius). -/
def r_ph : F := 1.5 * r_s

/-- Shader global: `float b_crit = 2.598 * r_s;` (critical impact parameter). -/
def b_crit : F := 2.598 * r_s

/-- Shader function `float sphereSDF(vec3 p, vec3 center, float radius)`. -/
def sphereSDF (P : Prims F) (p center : Vec3 F) (radius : F) : F :=
  Vec3.length P (Vec3.sub p center) - radius

/-- Shader function `float sceneSDF(vec3 p)`: distance to the event-horizon sphere. -/
def sceneSDF (P : Prims F) (p : Vec3 F) : F :=
  sphereSDF P p ⟨0, 0, 0⟩ r_s

/-- Shader function `float calcb(vec3 O, vec3 D)`: impact parameter `|cross(O, D)|`
(`D` assumed normalized). -/
def calcb (P : Prims F) (O D : Vec3 F) : F :=
  Vec3.length P (Vec3.cross O D)

/-- Shader function `vec3 rotateRodrigues(vec3 v, vec3 axis, float ang)` (axis assumed
normalized):
`v * cos(ang) + cross(axis, v) * sin(ang) + axis * dot(axis, v) * (1 - cos(ang))`. -/
def rotateRodrigues (P : Prims F) (v axis : Vec3 F) (ang : F) : Vec3 F :=
  Vec3.add
    (Vec3.add (Vec3.scale v (P.cos ang))
      (Vec3.scale (Vec3.cross axis v) (P.sin ang)))
    (Vec3.scale axis (Vec3.dot axis v * (1 - P.cos ang)))

/-- Shader function `float deflectionAngleStable(float b, float r_s, float b_crit)`. -/
def deflectionAngleStable (P : Prims F) (b rs bc : F) : F :=
  let weak := 2 * rs / max b 1e-6
  let distToCrit := b - bc
  let scal := 0.08 * bc
  let nearFactor := 1 + 3 * P.exp (-(distToCrit * distToCrit) / (scal * scal))
  let raw := weak * nearFactor
  let saturated := P.atan raw * 2
  glslClamp saturated 0 6

/-- Shader function `vec3 computeLensedColor(float b)`. -/
def computeLensedColor (P : Prims F) (b : F) : Vec3 F :=
  let normalized := b / b_crit
  let intensity := P.exp (-(normalized - 1) ^ 2 * 12)
  let baseColor : Vec3 F := ⟨1, 0.8, 0.6⟩
  let redshift : Vec3 F := ⟨0.9, 0.45, 0.25⟩
  let color := glslMix3 baseColor redshift (glslSmoothstep 1 0.3 normalized)
  let phBoost := P.exp (-(normalized - r_ph / b_crit) ^ 2 * 50)
  Vec3.scale color (intensity + 0.6 * phBoost)

/-- Shader constant `const int MAX_ORDERS = 5;`. -/
def MAX_ORDERS : Nat := 5

/-- Shader constant `const float TWO_PI = 6.28318530718;`. -/
def TWO_PI : F := 6.28318530718

/-- Shader function `float hash21(vec2 p)`: the star-noise hash. -/
def hash21 (p : Vec2 F) : F :=
  let p1 := Vec2.fractV (Vec2.cmul p ⟨123.34, 345.45⟩)
  let p2 := Vec2.addScalar p1 (Vec2.dot p1 (Vec2.addScalar p1 34.345))
  glslFract (p2.x * p2.y)

/-- Shader function `vec3 skyColor(vec3 dir)`: procedural starfield background. -/
def skyColor (P : Prims F) (dir : Vec3 F) : Vec3 F :=
  let t := 0.5 * (dir.y + 1)
  let base := glslMix3 ⟨0.02, 0.02, 0.06⟩ ⟨0.15, 0.25, 0.5⟩ t
  let uv : Vec2 F := ⟨P.atan2 dir.z dir.x / TWO_PI + 0.5, P.asin dir.y / 3.14159265 + 0.5⟩
  let s := hash21 (Vec2.floorV (Vec2.scale uv 1024))
  let star := glslStep 0.9995 s * hash21 (Vec2.scale uv 4321) ^ 10
  Vec3.add base ⟨star, star, star⟩

/-- Shader function `float deflectionAngleApprox(float b, float r_s, float b_crit)` (used by
`sampleLensedSky`, not by the marcher). -/
def deflectionAngleApprox (b rs bc : F) : F :=
  let rel0 := (b - bc) / (0.2 * bc)
  let rel := glslClamp rel0 (-5) 5
  glslClamp ((1 / (rel * rel + 0.001)) * (0.25 * rs)) 0 20

/-- Shader function `vec3 rotateAroundAxis(vec3 v, vec3 axis, float ang)`: same Rodrigues
formula, re-declared in the source for the sky sampler. -/
def rotateAroundAxis (P : Prims F) (v axis : Vec3 F) (ang : F) : Vec3 F :=
  Vec3.add
    (Vec3.add (Vec3.scale v (P.cos ang))
      (Vec3.scale (Vec3.cross axis v) (P.sin ang)))
    (Vec3.scale axis (Vec3.dot axis v * (1 - P.cos ang)))

/-- Body of the `for (int n = 0; n <= MAX_ORDERS; ++n)` accumulation loop of
`sampleLensedSky`; the state is the pair `(accum, totalWeight)`. -/
def lensedIter (P : Prims F) (b : F) (Dn axis : Vec3 F) (acc : Vec3 F × F)
    (n : Nat) : Vec3 F × F :=
  let baseAlpha := deflectionAngleApprox b r_s b_crit
  let alphaN := baseAlpha + (n : F) * TWO_PI
  let weight0 := P.exp (-(n : F) * 4)
  let closeness := P.exp (-|(b - b_crit) / (0.1 * b_crit)|)
  let weight := weight0 * closeness
  let bent := rotateAroundAxis P Dn axis alphaN
  let sampleCol := skyColor P bent
  (Vec3.add acc.1 (Vec3.scale sampleCol weight), acc.2 + weight)

/-- The accumulation loop of `sampleLensedSky`, run for `n = 0..MAX_ORDERS`
from the zero state. -/
def lensedLoop (P : Prims F) (b : F) (Dn axis : Vec3 F) : Vec3 F × F :=
  (List.range (MAX_ORDERS + 1)).foldl (lensedIter P b Dn axis) (⟨0, 0, 0⟩, 0)

/-- Shader function `vec3 sampleLensedSky(vec3 ro, vec3 D, float b)`. -/
def sampleLensedSky (P : Prims F) (ro D : Vec3 F) (b : F) : Vec3 F :=
  let Dn := Vec3.normalize P D
  if b ≤ b_crit then ⟨0, 0, 0⟩
  else
    let axisRaw := Vec3.cross Dn ro
    let axisLen := Vec3.length P axisRaw
    if axisLen < 1e-6 then skyColor P Dn
    else
      let axis := Vec3.divScalar axisRaw axisLen
      let res := lensedLoop P b Dn axis
      if res.2 > 0 then Vec3.divScalar res.1 res.2 else skyColor P Dn

/-- Result of the marching loop of `main`: the classification flag `hit`,
the last point `p` and direction `D`, the accumulated distance `t`, and the
number of loop iterations that were executed. -/
structure MarchResult (F : Type*) where
  hit : Bool
  p : Vec3 F
  D : Vec3 F
  t : F
  steps : Nat
deriving DecidableEq

/-- Shader constant `const int MAX_STEPS = 500;`. -/
def MAX_STEPS : Nat := 500

/-- Shader constant `const float MAX_DIST = 100;`. -/
def MAX_DIST : F := 100

/-- Shader constant `const float MIN_STEP = 0.001;`. -/
def MIN_STEP : F := 0.001

/-- Shader constant `const float BEND_UPDATE_INTERVAL = 2;`. -/
def BEND_UPDATE_INTERVAL : F := 2

/-- The in-march direction update of `main` (the
`if ((i % int(max(1, BEND_UPDATE_INTERVAL))) == 0)` block): every second
iteration, if the rotation axis `cross(D, p)` is long enough, rotate `D` by
a clamped incremental deflection angle; otherwise leave `D` unchanged.
`int(max(1, BEND_UPDATE_INTERVAL)) = 2`. -/
def bendUpdate (P : Prims F) (i : Nat) (p D : Vec3 F) : Vec3 F :=
  if i % 2 = 0 then
    let toCenter := p
    let axisRaw := Vec3.cross D toCenter
    let axisLen := Vec3.length P axisRaw
    if axisLen > 1e-6 then
      let axis := Vec3.divScalar axisRaw axisLen
      let local_b := Vec3.length P (Vec3.cross toCenter D) / max 1e-6 (Vec3.length P D)
      let ang := deflectionAngleStable P local_b r_s b_crit
      let r := max (Vec3.length P toCenter) 1e-6
      let falloff := glslClamp (r_ph / r) 0 4
      let incremental0 := 0.18 * ang * (falloff / (MAX_STEPS : F)) * 200
      let incremental := glslClamp incremental0 0 1.2
      Vec3.normalize P (rotateRodrigues P D axis incremental)
    else D
  else D

/-- The marching loop `for (int i = 0; i < MAX_STEPS; ++i)` of `main`,
with the remaining iteration budget `fuel` made explicit (`fuel = MAX_STEPS - i`).
The GLSL locals `p`, `t`, `D` are threaded through the recursion; on loop
exhaustion they keep their last values, exactly as in the shader. -/
def marchAux (P : Prims F) (O : Vec3 F) :
    Nat → Nat → F → Vec3 F → Vec3 F → MarchResult F
  | 0, i, t, D, p => ⟨false, p, D, t, i⟩
  | fuel + 1, i, t, D, _p =>
    let p' := Vec3.add O (Vec3.scale D t)
    let d := sceneSDF P p'
    if d < 0.001 then ⟨true, p', D, t, i + 1⟩
    else if t > MAX_DIST then ⟨false, p', D, t, i + 1⟩
    else marchAux P O fuel (i + 1) (t + max d MIN_STEP) (bendUpdate P i p' D) p'
  -- the unused heuristic local `likelyCaptured` of `main` is dead code and
  -- has no counterpart here

/-- The full marching loop of `main`, from `t = 0`, `i = 0`, with the
initial (uninitialized in GLSL, never read before first assignment) point
taken to be `O`. -/
def march (P : Prims F) (O D0 : Vec3 F) : MarchResult F :=
  marchAux P O MAX_STEPS 0 0 D0 O

/-- Ray setup of `main` (lines before the marching loop): pixel coordinate
to world-space ray direction. -/
def rayDirWorldOf (P : Prims F) (fragCoord iResolution : Vec2 F)
    (invViewMatrix : Mat4 F) : Vec3 F :=
  let uv0 := Vec2.subScalar (Vec2.scale (Vec2.cdiv fragCoord iResolution) 2) 1
  let uv : Vec2 F := ⟨uv0.x * (iResolution.x / iResolution.y), uv0.y⟩
  let rayDirCam := Vec3.normalize P ⟨uv.x, uv.y, -1⟩
  Vec3.normalize P
    (Vec4.xyz (Mat4.mulVec invViewMatrix ⟨rayDirCam.x, rayDirCam.y, rayDirCam.z, 0⟩))

/-- Shader entry point `void main()`: the per-pixel evaluation, returning `FragColor`. -/
def mainFrag (P : Prims F) (fragCoord iResolution : Vec2 F) (cameraPos : Vec3 F)
    (invViewMatrix : Mat4 F) : Vec4 F :=
  let rayDirWorld0 := rayDirWorldOf P fragCoord iResolution invViewMatrix
  let ro := cameraPos
  let b_global := calcb P ro rayDirWorld0
  let mr := march P ro rayDirWorld0
  -- final direction after integrated bending: rayDirWorld = D
  let rayDirWorld := mr.D
  if mr.hit then ⟨0, 0, 0, 1⟩
  else
    let bg := sampleLensedSky P cameraPos rayDirWorld b_global
    let ringProximity := P.exp (-((b_global - b_crit) / (0.03 * b_crit)) ^ 2)
    let ringColor := computeLensedColor P b_global
    let final := glslMix3 bg ringColor (glslSmoothstep 0 0.85 ringProximity)
    ⟨final.x, final.y, final.z, 1⟩

/-- One order of the specification's description of `sampleLensedSky`
(spec §4.6 and claim C2): the direction rotated by `θb + n·2π` around the
axis, sampled from `skyColor`, accumulated with weight
`exp(-4n)·exp(-|b-b_crit|/(0.1·b_crit))`. -/
def lensedIterSpec (P : Prims F) (b θb : F) (Dn axis : Vec3 F) (acc : Vec3 F × F)
    (n : Nat) : Vec3 F × F :=
  (Vec3.add acc.1
    (Vec3.scale (skyColor P (rotateAroundAxis P Dn axis (θb + (n : F) * TWO_PI)))
      (P.exp (-(4 * (n : F))) * P.exp (-(|b - b_crit| / (0.1 * b_crit))))),
   acc.2 + P.exp (-(4 * (n : F))) * P.exp (-(|b - b_crit| / (0.1 * b_crit))))

/-- The specification's description of `sampleLensedSky` (spec §4.6 and claim
C2), parameterized by the deflection angle `θb` it ascribes to the ray: a
rotation axis from the cross product of direction and origin; for orders
`n = 0..5` the weighted `skyColor` samples of `lensedIterSpec`; the
weight-normalized average, falling back to `skyColor(direction)` if the
total weight is not positive. -/
def sampleLensedSkySpec (P : Prims F) (ro D : Vec3 F) (b θb : F) : Vec3 F :=
  let Dn := Vec3.normalize P D
  let axisRaw := Vec3.cross Dn ro
  let axis := Vec3.divScalar axisRaw (Vec3.length P axisRaw)
  let res := (List.range (MAX_ORDERS + 1)).foldl (lensedIterSpec P b θb Dn axis)
    ((⟨0, 0, 0⟩ : Vec3 F), (0 : F))
  if res.2 > 0 then Vec3.divScalar res.1 res.2 else skyColor P Dn

/-- A concrete rational instantiation of the primitives, used to evaluate
the shader on explicit inputs: a square root that is exact at `0` and
nonnegative everywhere, a rotation standing still (`cos = 1`, `sin = 0`,
the Pythagorean identity holds everywhere), a positive exponential. -/
def qPrimsM : Prims ℚ where
  sqrt := fun x => max x 0
  cos := fun _ => 1
  sin := fun _ => 0
  atan := fun _ => 0
  exp := fun _ => 1
  asin := fun _ => 0
  atan2 := fun _ _ => 0

/-- A degenerate rational instantiation of the primitives (every built-in
returns `0`), used to drive the marcher into an immediate hit. -/
def qPrimsZ : Prims ℚ where
  sqrt := fun _ => 0
  cos := fun _ => 0
  sin := fun _ => 0
  atan := fun _ => 0
  exp := fun _ => 0
  asin := fun _ => 0
  atan2 := fun _ _ => 0

/-- C3: for every origin and direction, `sampleLensedSky` returns exactly the
color `(0,0,0)` whenever the supplied impact parameter satisfies
`b ≤ b_crit` (the `if (b <= b_crit) return vec3(0.0);` guard). -/
theorem sampleLensedSky_below_crit_black (P : Prims F) (ro D : Vec3 F) (b : F)
    (hb : b ≤ b_crit) : sampleLensedSky P ro D b = ⟨0, 0, 0⟩ := by
  simp [sampleLensedSky, hb]

theorem sampleLensedSky_below_crit_black_witness :
    (1 : ℚ) ≤ b_crit ∧ sampleLensedSky qPrimsM ⟨1, 0, 0⟩ ⟨0, 1, 0⟩ 1 = ⟨0, 0, 0⟩ :=
  ⟨by norm_num [b_crit, r_s],
    sampleLensedSky_below_crit_black qPrimsM ⟨1, 0, 0⟩ ⟨0, 1, 0⟩ 1
      (by norm_num [b_crit, r_s])⟩

/-- C4: for every impact parameter `b ≥ 0`, the deflection angle returned by
`deflectionAngleStable` (the DeflectionModel) equals
`clamp(atan(2·r_s/max(b,1e-6) · (1 + 3·exp(-(b-b_crit)²/(0.08·b_crit)²)))·2, 0, 6)`,
and in particular it is nonnegative and bounded above by `6` radians. -/
theorem deflectionAngleStable_formula_bounds (P : Prims F) (b : F) (hb : 0 ≤ b) :
    deflectionAngleStable P b r_s b_crit =
      glslClamp (P.atan (2 * r_s / max b 1e-6 *
        (1 + 3 * P.exp (-(b - b_crit) ^ 2 / (0.08 * b_crit) ^ 2))) * 2) 0 6 ∧
    0 ≤ deflectionAngleStable P b r_s b_crit ∧
    deflectionAngleStable P b r_s b_crit ≤ 6 := by
  refine ⟨?_, ?_, ?_⟩
  · simp only [deflectionAngleStable]
    congr 3
    ring
  · simp only [deflectionAngleStable, glslClamp]
    exact le_min (le_max_right _ _) (by norm_num)
  · simp only [deflectionAngleStable, glslClamp]
    exact min_le_right _ _

theorem deflectionAngleStable_formula_bounds_witness :
    (0 : ℚ) ≤ 3 ∧
    (deflectionAngleStable qPrimsM 3 r_s b_crit =
      glslClamp (qPrimsM.atan (2 * r_s / max 3 1e-6 *
        (1 + 3 * qPrimsM.exp (-((3 : ℚ) - b_crit) ^ 2 / (0.08 * b_crit) ^ 2))) * 2) 0 6 ∧
    0 ≤ deflectionAngleStable qPrimsM 3 r_s b_crit ∧
    deflectionAngleStable qPrimsM 3 r_s b_crit ≤ 6) :=
  ⟨by norm_num, deflectionAngleStable_formula_bounds qPrimsM 3 (by norm_num)⟩

/-- C9: on every code path of the per-pixel evaluation (captured and escaped
rays alike), the output fragment color has alpha component exactly `1`. -/
theorem mainFrag_alpha_one (P : Prims F) (fragCoord iResolution : Vec2 F)
    (cameraPos : Vec3 F) (invViewMatrix : Mat4 F) :
    (mainFrag P fragCoord iResolution cameraPos invViewMatrix).w = 1 := by
  simp only [mainFrag]
  split <;> rfl

/-- C8: whenever the rotation-axis cross product has length below `1e-6`,
the computation skips the rotation: the in-march bending update leaves the
current direction `D` unchanged for that step, and (for an above-critical
impact parameter, where the accumulation branch of `sampleLensedSky` is in
scope) `sampleLensedSky` returns the plain unrotated `skyColor` sample of
its normalized direction instead of accumulating lensed orders. -/
theorem axis_guard_skips_rotation (P : Prims F) (i : Nat) (p D ro D' : Vec3 F)
    (b : F) :
    (Vec3.length P (Vec3.cross D p) < 1e-6 → bendUpdate P i p D = D) ∧
    (b_crit < b → Vec3.length P (Vec3.cross (Vec3.normalize P D') ro) < 1e-6 →
      sampleLensedSky P ro D' b = skyColor P (Vec3.normalize P D')) := by
  constructor
  · intro h
    have h' : ¬ (1e-6 : F) < Vec3.length P (Vec3.cross D p) := not_lt.mpr h.le
    by_cases hi : i % 2 = 0
    · simp [bendUpdate, hi, h']
    · simp [bendUpdate, hi]
  · intro hb hax
    have hb' : ¬ b ≤ b_crit := not_le.mpr hb
    simp [sampleLensedSky, hb', hax]

theorem axis_guard_skips_rotation_witness :
    Vec3.length qPrimsM (Vec3.cross ⟨0, 0, 1⟩ ⟨0, 0, 5⟩) < 1e-6 ∧
    bendUpdate qPrimsM 0 ⟨0, 0, 5⟩ ⟨0, 0, 1⟩ = ⟨0, 0, 1⟩ ∧
    b_crit < (3 : ℚ) ∧
    Vec3.length qPrimsM (Vec3.cross (Vec3.normalize qPrimsM ⟨0, 0, 1⟩) ⟨0, 0, 5⟩) < 1e-6 ∧
    sampleLensedSky qPrimsM ⟨0, 0, 5⟩ ⟨0, 0, 1⟩ 3 =
      skyColor qPrimsM (Vec3.normalize qPrimsM ⟨0, 0, 1⟩) := by
  have h1 : Vec3.length qPrimsM (Vec3.cross (⟨0, 0, 1⟩ : Vec3 ℚ) ⟨0, 0, 5⟩) < 1e-6 := by
    norm_num [Vec3.length, Vec3.cross, Vec3.normSq, Vec3.dot, qPrimsM]
  have h2 : b_crit < (3 : ℚ) := by norm_num [b_crit, r_s]
  have h3 : Vec3.length qPrimsM
      (Vec3.cross (Vec3.normalize qPrimsM ⟨0, 0, 1⟩) ⟨0, 0, 5⟩) < 1e-6 := by
    norm_num [Vec3.length, Vec3.cross, Vec3.normSq, Vec3.dot, Vec3.normalize,
      Vec3.divScalar, qPrimsM]
  exact ⟨h1, (axis_guard_skips_rotation qPrimsM 0 ⟨0, 0, 5⟩ ⟨0, 0, 1⟩ ⟨0, 0, 5⟩
      ⟨0, 0, 1⟩ 3).1 h1, h2, h3,
    (axis_guard_skips_rotation qPrimsM 0 ⟨0, 0, 5⟩ ⟨0, 0, 1⟩ ⟨0, 0, 5⟩
      ⟨0, 0, 1⟩ 3).2 h2 h3⟩

/-- C1: for every pixel whose ray march terminates with a hit, the
compositor outputs pure black `(0,0,0,1)`, regardless of the ray's impact
parameter (the `if (hit)` branch of `main` is unconditional). -/
theorem mainFrag_hit_black (P : Prims F) (fragCoord iResolution : Vec2 F)
    (cameraPos : Vec3 F) (invViewMatrix : Mat4 F)
    (h : (march P cameraPos
      (rayDirWorldOf P fragCoord iResolution invViewMatrix)).hit = true) :
    mainFrag P fragCoord iResolution cameraPos invViewMatrix = ⟨0, 0, 0, 1⟩ := by
  simp only [mainFrag]
  rw [if_pos h]

/-- One unfolding of the marching loop, for evaluating it on explicit
inputs. -/
theorem marchAux_succ (P : Prims F) (O : Vec3 F) (fuel i : Nat) (t : F) (D p : Vec3 F) :
    marchAux P O (fuel + 1) i t D p =
      (let p' := Vec3.add O (Vec3.scale D t)
       let d := sceneSDF P p'
       if d < 0.001 then ⟨true, p', D, t, i + 1⟩
       else if t > MAX_DIST then ⟨false, p', D, t, i + 1⟩
       else marchAux P O fuel (i + 1) (t + max d MIN_STEP) (bendUpdate P i p' D) p') := rfl

theorem mainFrag_hit_black_witness :
    (march qPrimsZ ⟨0, 0, 5⟩
        (rayDirWorldOf qPrimsZ ⟨1/2, 1/2⟩ ⟨1, 1⟩
          ⟨⟨0, 0, 0, 0⟩, ⟨0, 0, 0, 0⟩, ⟨0, 0, 0, 0⟩, ⟨0, 0, 0, 0⟩⟩)).hit = true ∧
    mainFrag qPrimsZ ⟨1/2, 1/2⟩ ⟨1, 1⟩ ⟨0, 0, 5⟩
      ⟨⟨0, 0, 0, 0⟩, ⟨0, 0, 0, 0⟩, ⟨0, 0, 0, 0⟩, ⟨0, 0, 0, 0⟩⟩ = ⟨0, 0, 0, 1⟩ := by
  have hd : rayDirWorldOf qPrimsZ ⟨1/2, 1/2⟩ ⟨1, 1⟩
      ⟨⟨0, 0, 0, 0⟩, ⟨0, 0, 0, 0⟩, ⟨0, 0, 0, 0⟩, ⟨0, 0, 0, 0⟩⟩ = (⟨0, 0, 0⟩ : Vec3 ℚ) := by
    simp only [rayDirWorldOf, Vec2.cdiv, Vec2.scale, Vec2.subScalar, Vec3.normalize,
      Vec3.divScalar, Vec3.length, Vec3.normSq, Vec3.dot, Mat4.mulVec, Vec4.add,
      Vec4.scale, Vec4.xyz, qPrimsZ]
    norm_num
  have h : (march qPrimsZ ⟨0, 0, 5⟩
      (rayDirWorldOf qPrimsZ ⟨1/2, 1/2⟩ ⟨1, 1⟩
        ⟨⟨0, 0, 0, 0⟩, ⟨0, 0, 0, 0⟩, ⟨0, 0, 0, 0⟩, ⟨0, 0, 0, 0⟩⟩)).hit = true := by
    rw [hd, march, MAX_STEPS]
    rw [show (500 : Nat) = 499 + 1 from rfl, marchAux_succ]
    norm_num [sceneSDF, sphereSDF, Vec3.length, Vec3.normSq, Vec3.dot,
      Vec3.sub, Vec3.add, Vec3.scale, qPrimsZ, r_s]
  exact ⟨h, mainFrag_hit_black qPrimsZ ⟨1/2, 1/2⟩ ⟨1, 1⟩ ⟨0, 0, 5⟩
    ⟨⟨0, 0, 0, 0⟩, ⟨0, 0, 0, 0⟩, ⟨0, 0, 0, 0⟩, ⟨0, 0, 0, 0⟩⟩ h⟩

theorem marchAux_bounds (P : Prims F) (O : Vec3 F) :
    ∀ (fuel i : Nat) (t : F) (D p : Vec3 F),
      (marchAux P O fuel i t D p).steps ≤ i + fuel ∧
      ((marchAux P O fuel i t D p).hit = true →
        sceneSDF P (marchAux P O fuel i t D p).p < 0.001) ∧
      ((marchAux P O fuel i t D p).hit = false →
        (marchAux P O fuel i t D p).t > MAX_DIST ∨
        (marchAux P O fuel i t D p).steps = i + fuel) := by
  intro fuel
  induction fuel with
  | zero =>
    intro i t D p
    simp [marchAux]
  | succ fuel ih =>
    intro i t D p
    rw [marchAux_succ]
    by_cases h1 : sceneSDF P (Vec3.add O (Vec3.scale D t)) < 0.001
    · simp only [if_pos h1]
      exact ⟨by omega, fun _ => h1, by simp⟩
    · by_cases h2 : t > MAX_DIST
      · simp only [if_neg h1, if_pos h2]
        exact ⟨by omega, by simp, fun _ => Or.inl h2⟩
      · simp only [if_neg h1, if_neg h2]
        have ihx := ih (i + 1) (t + max (sceneSDF P (Vec3.add O (Vec3.scale D t))) MIN_STEP)
          (bendUpdate P i (Vec3.add O (Vec3.scale D t)) D) (Vec3.add O (Vec3.scale D t))
        refine ⟨le_trans ihx.1 (by omega), ihx.2.1, fun hf => ?_⟩
        rcases ihx.2.2 hf with h | h
        · exact Or.inl h
        · exact Or.inr (by omega)

/-- C5: the ray-marching loop terminates after at most 500 iterations; each
non-exit iteration advances `t` by `max(sceneSDF(p), MIN_STEP)` with
`MIN_STEP = 0.001`; the loop exits early as a hit (Captured) when
`sceneSDF(p) < 0.001`, and otherwise reports no hit only when `t` exceeded
`MAX_DIST = 100` or the 500-step budget was exhausted. -/
theorem march_bounded_and_steps (P : Prims F) (O D0 : Vec3 F) :
    (march P O D0).steps ≤ 500 ∧
    ((march P O D0).hit = true → sceneSDF P (march P O D0).p < 0.001) ∧
    ((march P O D0).hit = false →
      (march P O D0).t > 100 ∨ (march P O D0).steps = 500) ∧
    (∀ (fuel i : Nat) (t : F) (D p : Vec3 F),
      sceneSDF P (Vec3.add O (Vec3.scale D t)) < 0.001 →
      marchAux P O (fuel + 1) i t D p =
        ⟨true, Vec3.add O (Vec3.scale D t), D, t, i + 1⟩) ∧
    (∀ (fuel i : Nat) (t : F) (D p : Vec3 F),
      ¬ sceneSDF P (Vec3.add O (Vec3.scale D t)) < 0.001 → t > 100 →
      marchAux P O (fuel + 1) i t D p =
        ⟨false, Vec3.add O (Vec3.scale D t), D, t, i + 1⟩) ∧
    (∀ (fuel i : Nat) (t : F) (D p : Vec3 F),
      ¬ sceneSDF P (Vec3.add O (Vec3.scale D t)) < 0.001 → ¬ t > 100 →
      marchAux P O (fuel + 1) i t D p =
        marchAux P O fuel (i + 1)
          (t + max (sceneSDF P (Vec3.add O (Vec3.scale D t))) 0.001)
          (bendUpdate P i (Vec3.add O (Vec3.scale D t)) D)
          (Vec3.add O (Vec3.scale D t))) := by
  have hb := marchAux_bounds P O MAX_STEPS 0 0 D0 O
  refine ⟨hb.1, hb.2.1, ?_, ?_, ?_, ?_⟩
  · intro hf
    rcases hb.2.2 hf with h | h
    · exact Or.inl h
    · exact Or.inr h
  · intro fuel i t D p h1
    rw [marchAux_succ]
    simp only [if_pos h1]
  · intro fuel i t D p h1 h2
    rw [marchAux_succ]
    simp only [if_neg h1, MAX_DIST, if_pos h2]
  · intro fuel i t D p h1 h2
    rw [marchAux_succ]
    simp only [if_neg h1, MAX_DIST, if_neg h2, MIN_STEP]

theorem march_bounded_and_steps_witness :
    (march qPrimsZ ⟨0, 0, 5⟩ ⟨0, 0, 0⟩).steps ≤ 500 ∧
    sceneSDF qPrimsZ (march qPrimsZ ⟨0, 0, 5⟩ (⟨0, 0, 0⟩ : Vec3 ℚ)).p < 0.001 := by
  have h : (march qPrimsZ ⟨0, 0, 5⟩ (⟨0, 0, 0⟩ : Vec3 ℚ)).hit = true := by
    rw [march, MAX_STEPS]
    rw [show (500 : Nat) = 499 + 1 from rfl, marchAux_succ]
    norm_num [sceneSDF, sphereSDF, Vec3.length, Vec3.normSq, Vec3.dot,
      Vec3.sub, Vec3.add, Vec3.scale, qPrimsZ, r_s]
  exact ⟨(march_bounded_and_steps qPrimsZ ⟨0, 0, 5⟩ ⟨0, 0, 0⟩).1,
    (march_bounded_and_steps qPrimsZ ⟨0, 0, 5⟩ ⟨0, 0, 0⟩).2.1 h⟩

/-- C6: the Rodrigues rotation preserves the (squared and plain) norm of
`v` for a unit axis, and rotating by `θ` then by `-θ` around the same axis
returns `v`, given the exact-arithmetic facts about cosine and sine at `θ`
(the Pythagorean identity and the parity of cosine/sine). -/
theorem rotateRodrigues_norm_inverse (P : Prims F) (v a : Vec3 F) (θ : F)
    (ha : Vec3.normSq a = 1)
    (hpy : P.cos θ ^ 2 + P.sin θ ^ 2 = 1)
    (hc : P.cos (-θ) = P.cos θ) (hs : P.sin (-θ) = -P.sin θ) :
    Vec3.normSq (rotateRodrigues P v a θ) = Vec3.normSq v ∧
    Vec3.length P (rotateRodrigues P v a θ) = Vec3.length P v ∧
    rotateRodrigues P (rotateRodrigues P v a θ) a (-θ) = v := by
  have ha' : a.x * a.x + a.y * a.y + a.z * a.z = 1 := by
    simpa [Vec3.normSq, Vec3.dot] using ha
  have hnorm : Vec3.normSq (rotateRodrigues P v a θ) = Vec3.normSq v := by
    simp only [rotateRodrigues, Vec3.normSq, Vec3.dot, Vec3.add, Vec3.scale, Vec3.cross]
    linear_combination
      ((v.x * v.x + v.y * v.y + v.z * v.z) * P.sin θ ^ 2 +
        (a.x * v.x + a.y * v.y + a.z * v.z) ^ 2 * (1 - P.cos θ) ^ 2) * ha' +
      ((v.x * v.x + v.y * v.y + v.z * v.z) -
        (a.x * v.x + a.y * v.y + a.z * v.z) ^ 2) * hpy
  refine ⟨hnorm, ?_, ?_⟩
  · simp only [Vec3.length, hnorm]
  · ext
    · simp only [rotateRodrigues, hc, hs, Vec3.add, Vec3.scale, Vec3.cross, Vec3.dot]
      linear_combination
        (P.sin θ ^ 2 * v.x +
          (a.x * v.x + a.y * v.y + a.z * v.z) * (1 - P.cos θ) ^ 2 * a.x) * ha' +
        (v.x - (a.x * v.x + a.y * v.y + a.z * v.z) * a.x) * hpy
    · simp only [rotateRodrigues, hc, hs, Vec3.add, Vec3.scale, Vec3.cross, Vec3.dot]
      linear_combination
        (P.sin θ ^ 2 * v.y +
          (a.x * v.x + a.y * v.y + a.z * v.z) * (1 - P.cos θ) ^ 2 * a.y) * ha' +
        (v.y - (a.x * v.x + a.y * v.y + a.z * v.z) * a.y) * hpy
    · simp only [rotateRodrigues, hc, hs, Vec3.add, Vec3.scale, Vec3.cross, Vec3.dot]
      linear_combination
        (P.sin θ ^ 2 * v.z +
          (a.x * v.x + a.y * v.y + a.z * v.z) * (1 - P.cos θ) ^ 2 * a.z) * ha' +
        (v.z - (a.x * v.x + a.y * v.y + a.z * v.z) * a.z) * hpy

theorem rotateRodrigues_norm_inverse_witness :
    Vec3.normSq (⟨0, 0, 1⟩ : Vec3 ℚ) = 1 ∧
    qPrimsM.cos 1 ^ 2 + qPrimsM.sin 1 ^ 2 = 1 ∧
    qPrimsM.cos (-1) = qPrimsM.cos 1 ∧
    qPrimsM.sin (-1) = -qPrimsM.sin 1 ∧
    (Vec3.normSq (rotateRodrigues qPrimsM ⟨2, 3, 4⟩ ⟨0, 0, 1⟩ 1) = Vec3.normSq ⟨2, 3, 4⟩ ∧
      Vec3.length qPrimsM (rotateRodrigues qPrimsM ⟨2, 3, 4⟩ ⟨0, 0, 1⟩ 1) =
        Vec3.length qPrimsM ⟨2, 3, 4⟩ ∧
      rotateRodrigues qPrimsM (rotateRodrigues qPrimsM ⟨2, 3, 4⟩ ⟨0, 0, 1⟩ 1)
        ⟨0, 0, 1⟩ (-1) = ⟨2, 3, 4⟩) := by
  have h1 : Vec3.normSq (⟨0, 0, 1⟩ : Vec3 ℚ) = 1 := by norm_num [Vec3.normSq, Vec3.dot]
  have h2 : qPrimsM.cos 1 ^ 2 + qPrimsM.sin 1 ^ 2 = 1 := by norm_num [qPrimsM]
  have h3 : qPrimsM.cos (-1) = qPrimsM.cos 1 := rfl
  have h4 : qPrimsM.sin (-1) = -qPrimsM.sin 1 := by norm_num [qPrimsM]
  exact ⟨h1, h2, h3, h4,
    rotateRodrigues_norm_inverse qPrimsM ⟨2, 3, 4⟩ ⟨0, 0, 1⟩ 1 h1 h2 h3 h4⟩

/-- C7: the impact parameter `b = |cross(O, D)|` is nonnegative (for a
square root that is nonnegative, as the real one is), vanishes when the
direction is parallel or anti-parallel to the camera position, and equals
`|O|` when the unit direction is perpendicular to `O`. -/
theorem calcb_properties (P : Prims F) (O D : Vec3 F)
    (hs : ∀ x : F, 0 ≤ P.sqrt x) (h0 : P.sqrt 0 = 0) :
    0 ≤ calcb P O D ∧
    (∀ c : F, D = Vec3.scale O c → calcb P O D = 0) ∧
    (Vec3.normSq D = 1 → Vec3.dot O D = 0 → calcb P O D = Vec3.length P O) := by
  refine ⟨hs _, ?_, ?_⟩
  · intro c hD
    have hz : Vec3.cross O (Vec3.scale O c) = (⟨0, 0, 0⟩ : Vec3 F) := by
      ext <;> simp [Vec3.cross, Vec3.scale] <;> ring
    rw [hD, calcb, hz]
    simp only [Vec3.length, Vec3.normSq, Vec3.dot]
    rw [show (0 : F) * 0 + 0 * 0 + 0 * 0 = 0 by ring, h0]
  · intro hD hOD
    have hD' : D.x * D.x + D.y * D.y + D.z * D.z = 1 := by
      simpa [Vec3.normSq, Vec3.dot] using hD
    have hOD' : O.x * D.x + O.y * D.y + O.z * D.z = 0 := by
      simpa [Vec3.dot] using hOD
    have harg : Vec3.normSq (Vec3.cross O D) = Vec3.normSq O := by
      simp only [Vec3.normSq, Vec3.dot, Vec3.cross]
      linear_combination (O.x * O.x + O.y * O.y + O.z * O.z) * hD' -
        (O.x * D.x + O.y * D.y + O.z * D.z) * hOD'
    simp only [calcb, Vec3.length, harg]

theorem calcb_properties_witness :
    (0 : ℚ) ≤ calcb qPrimsM ⟨0, 0, 5⟩ ⟨0, 0, 1⟩ ∧
    calcb qPrimsM ⟨0, 0, 5⟩ ⟨0, 0, 1⟩ = 0 ∧
    calcb qPrimsM ⟨0, 0, 5⟩ ⟨1, 0, 0⟩ = Vec3.length qPrimsM ⟨0, 0, 5⟩ := by
  have hs : ∀ x : ℚ, 0 ≤ qPrimsM.sqrt x := fun x => le_max_right x 0
  have h0 : qPrimsM.sqrt 0 = 0 := by norm_num [qPrimsM]
  refine ⟨(calcb_properties qPrimsM ⟨0, 0, 5⟩ ⟨0, 0, 1⟩ hs h0).1,
    (calcb_properties qPrimsM ⟨0, 0, 5⟩ ⟨0, 0, 1⟩ hs h0).2.1 (1/5)
      (by ext <;> norm_num [Vec3.scale]),
    (calcb_properties qPrimsM ⟨0, 0, 5⟩ ⟨1, 0, 0⟩ hs h0).2.2
      (by norm_num [Vec3.normSq, Vec3.dot]) (by norm_num [Vec3.dot])⟩

/-- One unfolding of the sky-accumulation loop body on the weight component. -/
theorem lensedIter_snd (P : Prims F) (b : F) (Dn axis : Vec3 F) (acc : Vec3 F × F)
    (n : Nat) :
    (lensedIter P b Dn axis acc n).2 =
      acc.2 + P.exp (-(n : F) * 4) * P.exp (-|(b - b_crit) / (0.1 * b_crit)|) := rfl

/-- C10: whenever `sampleLensedSky` reaches its accumulation loop
(`b > b_crit` and rotation-axis length at least `1e-6`), every per-order
weight is strictly positive (the exponential of the primitives being
positive at the seven evaluated arguments), so the total weight is positive
after the loop, the `skyColor` fallback branch of the final conditional is
unreachable, and the result is the weighted average `accum / totalWeight`. -/
theorem lensed_total_weight_pos (P : Prims F) (ro D : Vec3 F) (b : F)
    (hb : b_crit < b)
    (hax : 1e-6 ≤ Vec3.length P (Vec3.cross (Vec3.normalize P D) ro))
    (hw : ∀ n : ℕ, n < 6 → 0 < P.exp (-(n : F) * 4))
    (hcl : 0 < P.exp (-|(b - b_crit) / (0.1 * b_crit)|)) :
    0 < (lensedLoop P b (Vec3.normalize P D)
        (Vec3.divScalar (Vec3.cross (Vec3.normalize P D) ro)
          (Vec3.length P (Vec3.cross (Vec3.normalize P D) ro)))).2 ∧
    sampleLensedSky P ro D b =
      Vec3.divScalar
        (lensedLoop P b (Vec3.normalize P D)
          (Vec3.divScalar (Vec3.cross (Vec3.normalize P D) ro)
            (Vec3.length P (Vec3.cross (Vec3.normalize P D) ro)))).1
        (lensedLoop P b (Vec3.normalize P D)
          (Vec3.divScalar (Vec3.cross (Vec3.normalize P D) ro)
            (Vec3.length P (Vec3.cross (Vec3.normalize P D) ro)))).2 := by
  set Dn := Vec3.normalize P D with hDn
  set axis := Vec3.divScalar (Vec3.cross Dn ro) (Vec3.length P (Vec3.cross Dn ro))
    with haxis
  have hsum : (lensedLoop P b Dn axis).2 =
      0 + P.exp (-((0 : ℕ) : F) * 4) * P.exp (-|(b - b_crit) / (0.1 * b_crit)|)
        + P.exp (-((1 : ℕ) : F) * 4) * P.exp (-|(b - b_crit) / (0.1 * b_crit)|)
        + P.exp (-((2 : ℕ) : F) * 4) * P.exp (-|(b - b_crit) / (0.1 * b_crit)|)
        + P.exp (-((3 : ℕ) : F) * 4) * P.exp (-|(b - b_crit) / (0.1 * b_crit)|)
        + P.exp (-((4 : ℕ) : F) * 4) * P.exp (-|(b - b_crit) / (0.1 * b_crit)|)
        + P.exp (-((5 : ℕ) : F) * 4) * P.exp (-|(b - b_crit) / (0.1 * b_crit)|) := rfl
  have htw : 0 < (lensedLoop P b Dn axis).2 := by
    rw [hsum, zero_add]
    exact add_pos (add_pos (add_pos (add_pos (add_pos
      (mul_pos (hw 0 (by norm_num)) hcl)
      (mul_pos (hw 1 (by norm_num)) hcl))
      (mul_pos (hw 2 (by norm_num)) hcl))
      (mul_pos (hw 3 (by norm_num)) hcl))
      (mul_pos (hw 4 (by norm_num)) hcl))
      (mul_pos (hw 5 (by norm_num)) hcl)
  have hble : ¬ b ≤ b_crit := not_le.mpr hb
  have haxlt : ¬ Vec3.length P (Vec3.cross Dn ro) < 1e-6 := not_lt.mpr hax
  refine ⟨htw, ?_⟩
  simp only [sampleLensedSky, ← hDn, ← haxis, hble, if_false, haxlt, htw, if_true,
    gt_iff_lt]

theorem lensed_total_weight_pos_witness :
    b_crit < (3 : ℚ) ∧
    1e-6 ≤ Vec3.length qPrimsM
      (Vec3.cross (Vec3.normalize qPrimsM ⟨1, 0, 0⟩) ⟨0, 0, 5⟩) ∧
    (0 < (lensedLoop qPrimsM 3 (Vec3.normalize qPrimsM ⟨1, 0, 0⟩)
        (Vec3.divScalar (Vec3.cross (Vec3.normalize qPrimsM ⟨1, 0, 0⟩) ⟨0, 0, 5⟩)
          (Vec3.length qPrimsM
            (Vec3.cross (Vec3.normalize qPrimsM ⟨1, 0, 0⟩) ⟨0, 0, 5⟩)))).2 ∧
      sampleLensedSky qPrimsM ⟨0, 0, 5⟩ ⟨1, 0, 0⟩ 3 =
        Vec3.divScalar
          (lensedLoop qPrimsM 3 (Vec3.normalize qPrimsM ⟨1, 0, 0⟩)
            (Vec3.divScalar (Vec3.cross (Vec3.normalize qPrimsM ⟨1, 0, 0⟩) ⟨0, 0, 5⟩)
              (Vec3.length qPrimsM
                (Vec3.cross (Vec3.normalize qPrimsM ⟨1, 0, 0⟩) ⟨0, 0, 5⟩)))).1
          (lensedLoop qPrimsM 3 (Vec3.normalize qPrimsM ⟨1, 0, 0⟩)
            (Vec3.divScalar (Vec3.cross (Vec3.normalize qPrimsM ⟨1, 0, 0⟩) ⟨0, 0, 5⟩)
              (Vec3.length qPrimsM
                (Vec3.cross (Vec3.normalize qPrimsM ⟨1, 0, 0⟩) ⟨0, 0, 5⟩)))).2) := by
  have hb : b_crit < (3 : ℚ) := by norm_num [b_crit, r_s]
  have hax : (1e-6 : ℚ) ≤ Vec3.length qPrimsM
      (Vec3.cross (Vec3.normalize qPrimsM ⟨1, 0, 0⟩) ⟨0, 0, 5⟩) := by
    norm_num [Vec3.length, Vec3.cross, Vec3.normSq, Vec3.dot, Vec3.normalize,
      Vec3.divScalar, qPrimsM]
  exact ⟨hb, hax, lensed_total_weight_pos qPrimsM ⟨0, 0, 5⟩ ⟨1, 0, 0⟩ 3 hb hax
    (fun n hn => by norm_num [qPrimsM]) (by norm_num [qPrimsM])⟩

/-- C2 (amended): for `b > b_crit` with a well-defined rotation axis,
`sampleLensedSky` is exactly the specification's multi-order accumulator of
§4.6 with the per-ray angle `θ(b)` given by `deflectionAngleApprox` — the
approximate deflection model actually called in its loop — rather than the
`deflectionAngleStable` model of spec §4.3. -/
theorem sampleLensedSky_eq_spec_approx (P : Prims F) (ro D : Vec3 F) (b : F)
    (hb : b_crit < b)
    (hax : 1e-6 ≤ Vec3.length P (Vec3.cross (Vec3.normalize P D) ro)) :
    sampleLensedSky P ro D b =
      sampleLensedSkySpec P ro D b (deflectionAngleApprox b r_s b_crit) := by
  have hpos : (0 : F) < 0.1 * b_crit := by norm_num [b_crit, r_s]
  have hble : ¬ b ≤ b_crit := not_le.mpr hb
  have haxlt : ¬ Vec3.length P (Vec3.cross (Vec3.normalize P D) ro) < 1e-6 :=
    not_lt.mpr hax
  have hiter : lensedIterSpec P b (deflectionAngleApprox b r_s b_crit)
      (Vec3.normalize P D)
      (Vec3.divScalar (Vec3.cross (Vec3.normalize P D) ro)
        (Vec3.length P (Vec3.cross (Vec3.normalize P D) ro))) =
      lensedIter P b (Vec3.normalize P D)
      (Vec3.divScalar (Vec3.cross (Vec3.normalize P D) ro)
        (Vec3.length P (Vec3.cross (Vec3.normalize P D) ro))) := by
    funext acc n
    simp only [lensedIter, lensedIterSpec]
    rw [show -(4 * (n : F)) = -(n : F) * 4 by ring,
      show -(|b - b_crit| / ((0.1 : F) * b_crit)) = -|(b - b_crit) / (0.1 * b_crit)|
        from by rw [abs_div, abs_of_pos hpos]]
  simp only [sampleLensedSky, sampleLensedSkySpec, lensedLoop, hble, if_false,
    haxlt, hiter]

theorem sampleLensedSky_eq_spec_approx_witness :
    b_crit < (3 : ℚ) ∧
    1e-6 ≤ Vec3.length qPrimsM
      (Vec3.cross (Vec3.normalize qPrimsM ⟨1, 0, 0⟩) ⟨0, 0, 5⟩) ∧
    sampleLensedSky qPrimsM ⟨0, 0, 5⟩ ⟨1, 0, 0⟩ 3 =
      sampleLensedSkySpec qPrimsM ⟨0, 0, 5⟩ ⟨1, 0, 0⟩ 3
        (deflectionAngleApprox 3 r_s b_crit) := by
  have hb : b_crit < (3 : ℚ) := by norm_num [b_crit, r_s]
  have hax : (1e-6 : ℚ) ≤ Vec3.length qPrimsM
      (Vec3.cross (Vec3.normalize qPrimsM ⟨1, 0, 0⟩) ⟨0, 0, 5⟩) := by
    norm_num [Vec3.length, Vec3.cross, Vec3.normSq, Vec3.dot, Vec3.normalize,
      Vec3.divScalar, qPrimsM]
  exact ⟨hb, hax, sampleLensedSky_eq_spec_approx qPrimsM ⟨0, 0, 5⟩ ⟨1, 0, 0⟩ 3 hb hax⟩

/-- A concrete rational instantiation of the primitives for exhibiting the
deflection-model mismatch in `sampleLensedSky`: the square root is exact on
the values met on the chosen input (`0` and `1`), and the remaining
built-ins are simple total functions, so both the shader loop and the
specification's accumulator evaluate to explicit rationals. -/
def cexPrims : Prims ℚ where
  sqrt := id
  cos := id
  sin := fun _ => 0
  atan := fun _ => 1
  exp := fun _ => 1/2
  asin := fun _ => 0
  atan2 := fun _ _ => 0

set_option maxHeartbeats 4000000 in
/-- C2 (counterexample): on the ray from origin `(1,0,0)` with direction
`(0,1,0)` and impact parameter `b = 2.599 > b_crit`, with a well-defined
rotation axis, the value of `sampleLensedSky` differs from the claim's
accumulator whose per-ray angle is the `deflectionAngleStable` model of
spec §4.3: the code calls `deflectionAngleApprox`, which evaluates to `20`
at this `b`, while the stable model is clamped to at most `6`. -/
theorem sampleLensedSky_spec_stable_cex :
    b_crit < (2.599 : ℚ) ∧
    1e-6 ≤ Vec3.length cexPrims
      (Vec3.cross (Vec3.normalize cexPrims ⟨0, 1, 0⟩) ⟨1, 0, 0⟩) ∧
    sampleLensedSky cexPrims ⟨1, 0, 0⟩ ⟨0, 1, 0⟩ 2.599 ≠
      sampleLensedSkySpec cexPrims ⟨1, 0, 0⟩ ⟨0, 1, 0⟩ 2.599
        (deflectionAngleStable cexPrims 2.599 r_s b_crit) := by
  refine ⟨by norm_num [b_crit, r_s], ?_, ?_⟩
  · norm_num [Vec3.length, Vec3.cross, Vec3.normSq, Vec3.dot, Vec3.normalize,
      Vec3.divScalar, cexPrims]
  · have e1 : (sampleLensedSky cexPrims ⟨1, 0, 0⟩ ⟨0, 1, 0⟩ 2.599).x =
        9624070449667 / 4000000000000 := by
      norm_num [sampleLensedSky, lensedLoop, lensedIter, MAX_ORDERS,
        show List.range 6 = [0, 1, 2, 3, 4, 5] from rfl, List.foldl_cons, List.foldl_nil,
        skyColor, hash21, glslFract, glslStep, glslMix3, glslMix, Int.fract,
        Vec2.cmul, Vec2.fractV, Vec2.floorV, Vec2.addScalar, Vec2.dot, Vec2.scale,
        Vec3.add, Vec3.scale, Vec3.divScalar, Vec3.cross, Vec3.dot, Vec3.normSq,
        Vec3.length, Vec3.normalize, rotateAroundAxis, deflectionAngleApprox,
        glslClamp, TWO_PI, b_crit, r_s, cexPrims]
    have e2 : (sampleLensedSkySpec cexPrims ⟨1, 0, 0⟩ ⟨0, 1, 0⟩ 2.599
        (deflectionAngleStable cexPrims 2.599 r_s b_crit)).x =
        4944070449667 / 4000000000000 := by
      norm_num [sampleLensedSkySpec, lensedIterSpec, deflectionAngleStable, MAX_ORDERS,
        show List.range 6 = [0, 1, 2, 3, 4, 5] from rfl, List.foldl_cons, List.foldl_nil,
        skyColor, hash21, glslFract, glslStep, glslMix3, glslMix, Int.fract,
        Vec2.cmul, Vec2.fractV, Vec2.floorV, Vec2.addScalar, Vec2.dot, Vec2.scale,
        Vec3.add, Vec3.scale, Vec3.divScalar, Vec3.cross, Vec3.dot, Vec3.normSq,
        Vec3.length, Vec3.normalize, rotateAroundAxis, glslClamp, TWO_PI, b_crit, r_s,
        cexPrims]
    intro h
    rw [h, e2] at e1
    norm_num at e1
